import Mathlib

/-!
Verification development for the CPC357 smart-home monitoring repository.

Part I embeds the browser dashboard client (vm_scripts/static/script.js):
the JSON payloads of the three query endpoints, the HTML rendering
templates, the fetch-with-timeout wrapper, the three load handlers with
their success / empty / failure branches, the historyLoaded flag, and the
setInterval refresh schedule.

Part II embeds the ingestion-side Store and Aggregator. Their code
(vm_scripts/mqtt_subscriber.py, vm_scripts/dashboard.py) is not part of
the sources available here, so those definitions are modelled from the
specification, as marked in their doc comments.

Conventions: machine JSON numbers are modelled as rationals; DOM
containers are modelled as the strings assigned to their innerHTML; a
fetch that settles is modelled by a FetchOutcome value, with the err
constructor covering both network rejection and the timeout rejection.
-/

set_option autoImplicit false

/-- Outcome of a fetch-then-parse pipeline: ok carries the decoded JSON
payload, err carries the rejection message (network failure, JSON parse
failure, or the timeout rejection). -/
inductive FetchOutcome (α : Type) where
  | ok (data : α)
  | err (msg : String)
deriving DecidableEq

/-- An HTTP request issued by the dashboard: the URL and the caller-side
timeout in milliseconds passed to fetchWithTimeout. -/
structure Request where
  url : String
  timeout : Nat
deriving DecidableEq

/-- Model of fetchWithTimeout (script.js lines 9-16): Promise.race between
the fetch, which settles after settleTime milliseconds with the given
result, and a timer that rejects with the Error message "Request timeout"
after req.timeout milliseconds. The fetch wins exactly when it settles
strictly before the timer fires. -/
def fetchWithTimeout {α : Type} (req : Request) (settleTime : Nat)
    (result : FetchOutcome α) : FetchOutcome α :=
  if settleTime < req.timeout then result else .err "Request timeout"

/-- One element of the JSON array returned by GET /api/latest, as consumed
by loadRoomCards. humidity_status is optional in the payload, hence an
Option. -/
structure RoomData where
  room : String
  device_id : String
  temperature : ℚ
  humidity : ℚ
  air_quality : ℚ
  light_level : ℚ
  temp_status : String
  humidity_status : Option String
  air_status : String
deriving DecidableEq

/-- One element of the JSON array returned by GET /api/stats, as consumed
by loadStats. -/
structure StatData where
  room : String
  total_readings : Nat
  avg_temp : ℚ
  avg_humidity : ℚ
  temp_alerts : Nat
  air_alerts : Nat
deriving DecidableEq

/-- One element of the JSON array returned by GET /api/readings, as
consumed by loadHistory. -/
structure RowData where
  timestamp : String
  room : String
  device_id : String
  temperature : ℚ
  temp_status : String
  humidity : ℚ
  air_quality : ℚ
  air_status : String
  light_level : ℚ
deriving DecidableEq

/-- roomIcons lookup with the house fallback (script.js lines 2-6,
`roomIcons[room] || fallback`). -/
def roomIcon (room : String) : String :=
  if room = "living_room" then "🛋️"
  else if room = "kitchen" then "🍳"
  else if room = "bedroom" then "🛏️"
  else "🏠"

/-- Conditional CSS class on the temperature value cell, from the template
expression on script.js lines 46 and 143: value-alert whenever temp_status
is not the string NORMAL. -/
def tempValueClass (status : String) : String :=
  if status ≠ "NORMAL" then "value-alert" else ""

/-- Conditional CSS class on the air-quality value cell, from the template
expression on script.js lines 58 and 146: value-alert exactly when
air_status is the string POOR. -/
def airValueClass (status : String) : String :=
  if status = "POOR" then "value-alert" else ""

/-- Displayed humidity status text, from the template expression
`humidity_status || NORMAL` on script.js line 53: a missing or falsy
(empty-string) field renders as NORMAL, any other string renders as
itself. -/
def humidityStatusText (hs : Option String) : String :=
  match hs with
  | none => "NORMAL"
  | some s => if s = "" then "NORMAL" else s

/-- CSS class of the humidity status badge, from script.js line 53: the
template hard-codes the literal class status-normal for the humidity
badge, independent of the humidity_status value of the room object. -/
def humidityStatusClass (_r : RoomData) : String :=
  "status-normal"

/-- Fixed-point formatting with one decimal, modelling Number.toFixed(1)
as used on script.js lines 102-103 (round to nearest, differences in tie
and negative-zero handling of JS doubles are irrelevant here). -/
def toFixed1 (q : ℚ) : String :=
  let n : Int := (q * 10 + 1 / 2).floor
  let sign := if n < 0 then "-" else ""
  sign ++ toString (n.natAbs / 10) ++ "." ++ toString (n.natAbs % 10)

/-- Room display name, from `room.replace(..)` on script.js lines 38, 97
and 141; the room identifiers contain a single underscore, so replacing
the first occurrence (JS) and every occurrence (here) agree. -/
def roomDisplayName (room : String) : String :=
  room.replace "_" " "

/-- HTML for one room card, flattening the template literal of
loadRoomCards (script.js lines 33-69); insignificant whitespace between
tags is dropped. -/
def roomCardHtml (r : RoomData) : String :=
  "<div class=\"room-card\"><div class=\"room-header\"><div class=\"room-icon\">"
    ++ roomIcon r.room
    ++ "</div><div class=\"room-title\"><h2>"
    ++ roomDisplayName r.room
    ++ "</h2><div class=\"device-id\">"
    ++ r.device_id
    ++ "</div></div></div><div class=\"sensor-grid\">"
    ++ "<div class=\"sensor-box\"><div class=\"sensor-label\"><i class=\"fas fa-thermometer-half\"></i> Temperature</div><div class=\"sensor-value "
    ++ tempValueClass r.temp_status
    ++ "\">"
    ++ toString r.temperature
    ++ "°C</div><span class=\"sensor-status status-"
    ++ r.temp_status.toLower
    ++ "\">"
    ++ r.temp_status
    ++ "</span></div>"
    ++ "<div class=\"sensor-box\"><div class=\"sensor-label\"><i class=\"fas fa-tint\"></i> Humidity</div><div class=\"sensor-value\">"
    ++ toString r.humidity
    ++ "%</div><span class=\"sensor-status "
    ++ humidityStatusClass r
    ++ "\">"
    ++ humidityStatusText r.humidity_status
    ++ "</span></div>"
    ++ "<div class=\"sensor-box\"><div class=\"sensor-label\"><i class=\"fas fa-wind\"></i> Air Quality</div><div class=\"sensor-value "
    ++ airValueClass r.air_status
    ++ "\">"
    ++ toString r.air_quality
    ++ "</div><span class=\"sensor-status status-"
    ++ r.air_status.toLower
    ++ "\">"
    ++ r.air_status
    ++ "</span></div>"
    ++ "<div class=\"sensor-box\"><div class=\"sensor-label\"><i class=\"fas fa-lightbulb\"></i> Light Level</div><div class=\"sensor-value\">"
    ++ toString r.light_level
    ++ "</div><span class=\"sensor-status status-normal\">lux</span></div>"
    ++ "</div></div>"

/-- HTML for the room-cards container on a non-empty payload: the for
loop of script.js lines 30-70 concatenates one card per element. -/
def roomCardsHtml (data : List RoomData) : String :=
  String.join (data.map roomCardHtml)

/-- Empty-payload message of loadRoomCards (script.js line 26). -/
def noRoomDataHtml : String :=
  "<div class=\"loading\"><p>No room data available</p></div>"

/-- Failure message of loadRoomCards (script.js lines 75-76). -/
def roomsFailureHtml : String :=
  "<div class=\"loading\"><p style=\"color: red;\">Failed to load room data</p></div>"

/-- HTML for one statistics card, flattening the template literal of
loadStats (script.js lines 95-108). -/
def statCardHtml (s : StatData) : String :=
  "<div class=\"stat-card\"><h3>"
    ++ roomIcon s.room ++ " " ++ roomDisplayName s.room
    ++ "</h3><div class=\"stat-value\">"
    ++ toString s.total_readings
    ++ "</div><div class=\"stat-label\">Total Readings</div>"
    ++ "<hr style=\"margin: 15px 0; border: none; border-top: 1px solid rgba(255,255,255,0.3);\">"
    ++ "<div style=\"font-size: 14px;\">"
    ++ "<div style=\"margin: 5px 0;\">Avg Temp: " ++ toFixed1 s.avg_temp ++ "°C</div>"
    ++ "<div style=\"margin: 5px 0;\">Avg Humidity: " ++ toFixed1 s.avg_humidity ++ "%</div>"
    ++ "<div style=\"margin: 5px 0;\">Temp Alerts: " ++ toString s.temp_alerts ++ "</div>"
    ++ "<div style=\"margin: 5px 0;\">Air Alerts: " ++ toString s.air_alerts ++ "</div>"
    ++ "</div></div>"

/-- HTML for the stats-grid container on a non-empty payload (script.js
lines 92-110). -/
def statCardsHtml (data : List StatData) : String :=
  String.join (data.map statCardHtml)

/-- Empty-payload message of loadStats (script.js line 88). -/
def noStatsHtml : String :=
  "<div class=\"loading\"><p>No statistics available</p></div>"

/-- Failure message of loadStats (script.js lines 114-115). -/
def statsFailureHtml : String :=
  "<div class=\"loading\"><p style=\"color: red;\">Failed to load statistics</p></div>"

/-- Rendering of the timestamp cell. In script.js line 140 the raw
timestamp string is passed through Date and toLocaleString, a pure,
environment-dependent reformatting that no claim depends on; it is
modelled as the identity on the raw string. -/
def formatTimestamp (ts : String) : String :=
  ts

/-- HTML for one history table row, flattening the template literal of
loadHistory (script.js lines 138-150). -/
def historyRowHtml (row : RowData) : String :=
  "<tr><td>"
    ++ formatTimestamp row.timestamp
    ++ "</td><td><span class=\"room-badge room-" ++ row.room ++ "\">"
    ++ roomIcon row.room ++ " " ++ roomDisplayName row.room
    ++ "</span></td><td>"
    ++ row.device_id
    ++ "</td><td class=\""
    ++ tempValueClass row.temp_status
    ++ "\">"
    ++ toString row.temperature
    ++ "</td><td><span class=\"sensor-status status-" ++ row.temp_status.toLower ++ "\">"
    ++ row.temp_status
    ++ "</span></td><td>"
    ++ toString row.humidity
    ++ "</td><td class=\""
    ++ airValueClass row.air_status
    ++ "\">"
    ++ toString row.air_quality
    ++ "</td><td><span class=\"sensor-status status-" ++ row.air_status.toLower ++ "\">"
    ++ row.air_status
    ++ "</span></td><td>"
    ++ toString row.light_level
    ++ "</td></tr>"

/-- HTML for the history table body on a non-empty payload (script.js
lines 135-152). -/
def historyRowsHtml (data : List RowData) : String :=
  String.join (data.map historyRowHtml)

/-- Empty-payload message of loadHistory (script.js line 131). -/
def noHistoryHtml : String :=
  "<tr><td colspan=\"9\" class=\"loading\">No history available</td></tr>"

/-- Failure message of loadHistory (script.js lines 157-158). -/
def historyFailureHtml : String :=
  "<tr><td colspan=\"9\" class=\"loading\" style=\"color: red;\">Failed to load history</td></tr>"

/-- The three DOM containers the load handlers write to, modelled by the
strings assigned to their innerHTML, plus the last-update banner. -/
structure DOM where
  room_cards : String
  stats_grid : String
  history_body : String
  last_update : String
deriving DecidableEq

/-- Mutable state of the dashboard page: the DOM containers and the
module-level historyLoaded flag (script.js line 120). -/
structure DashState where
  dom : DOM
  historyLoaded : Bool
deriving DecidableEq

/-- Request issued by loadRoomCards (script.js line 20). -/
def latestRequest : Request := ⟨"/api/latest", 3000⟩

/-- Request issued by loadStats (script.js line 82). -/
def statsRequest : Request := ⟨"/api/stats", 3000⟩

/-- Request issued by loadHistory (script.js line 125). -/
def historyRequest : Request := ⟨"/api/readings", 5000⟩

/-- One invocation of loadRoomCards (script.js lines 19-78), given the
outcome its single fetch settles with: returns the new page state and the
list of requests the invocation issued. The empty-array check renders the
no-data message; any rejection lands in the catch handler, which replaces
the container with the failure message. -/
def loadRoomCardsStep (st : DashState) (outcome : FetchOutcome (List RoomData)) :
    DashState × List Request :=
  let st' :=
    match outcome with
    | .ok [] => { st with dom := { st.dom with room_cards := noRoomDataHtml } }
    | .ok data => { st with dom := { st.dom with room_cards := roomCardsHtml data } }
    | .err _ => { st with dom := { st.dom with room_cards := roomsFailureHtml } }
  (st', [latestRequest])

/-- One invocation of loadStats (script.js lines 81-117), analogous to
loadRoomCardsStep. -/
def loadStatsStep (st : DashState) (outcome : FetchOutcome (List StatData)) :
    DashState × List Request :=
  let st' :=
    match outcome with
    | .ok [] => { st with dom := { st.dom with stats_grid := noStatsHtml } }
    | .ok data => { st with dom := { st.dom with stats_grid := statCardsHtml data } }
    | .err _ => { st with dom := { st.dom with stats_grid := statsFailureHtml } }
  (st', [statsRequest])

/-- One invocation of loadHistory (script.js lines 122-160). When the
historyLoaded flag is set, the function returns immediately: no fetch, no
DOM change. Otherwise it issues its single fetch; a non-empty payload is
rendered and sets the flag, while an empty payload or a rejection leaves
the flag clear. -/
def loadHistoryStep (st : DashState) (outcome : FetchOutcome (List RowData)) :
    DashState × List Request :=
  if st.historyLoaded then (st, [])
  else
    match outcome with
    | .ok [] =>
        ({ st with dom := { st.dom with history_body := noHistoryHtml } }, [historyRequest])
    | .ok data =>
        ({ dom := { st.dom with history_body := historyRowsHtml data },
           historyLoaded := true }, [historyRequest])
    | .err _ =>
        ({ st with dom := { st.dom with history_body := historyFailureHtml } }, [historyRequest])

/-- One firing of the 120-second history interval callback (script.js
lines 212-217): only when historyLoaded is set does it clear the flag and
call loadHistory; otherwise it does nothing. -/
def historyRefreshTick (st : DashState) (outcome : FetchOutcome (List RowData)) :
    DashState × List Request :=
  if st.historyLoaded then loadHistoryStep { st with historyLoaded := false } outcome
  else (st, [])

/-- Firing times of a setInterval timer registered with the given period
in milliseconds: every positive multiple of the period after page load. -/
def intervalFires (period t : Nat) : Bool :=
  decide (t % period = 0 ∧ t ≠ 0)

/-- The /api/latest endpoint is re-fetched by the 15000 ms interval
registered on script.js line 206 (updateCriticalData calls loadRoomCards
unconditionally). -/
def latestFetchedAt (t : Nat) : Bool :=
  intervalFires 15000 t

/-- The /api/stats endpoint is re-fetched by the 60000 ms interval
registered on script.js line 209. -/
def statsFetchedAt (t : Nat) : Bool :=
  intervalFires 60000 t

/-- The /api/readings endpoint is re-fetched by the 120000 ms interval
registered on script.js lines 212-217, and only when the historyLoaded
flag is set at that moment. -/
def historyFetchedAt (t : Nat) (historyLoaded : Bool) : Bool :=
  intervalFires 120000 t && historyLoaded

/-- A concrete page state used to instantiate witness theorems. -/
def st0 : DashState :=
  { dom := { room_cards := "old cards", stats_grid := "old stats",
             history_body := "old rows", last_update := "" },
    historyLoaded := false }

/-- A concrete room payload used to instantiate witness theorems. -/
def rd0 : RoomData :=
  { room := "kitchen", device_id := "esp32-01", temperature := 31,
    humidity := 70, air_quality := 210, light_level := 120,
    temp_status := "WARNING", humidity_status := some "ALERT",
    air_status := "ALERT" }

/-- C1: on any rejected fetch (failure or timeout), each load handler
replaces the content of its own container with its fixed failure message,
independent of whatever was rendered there before, and that failure
message differs from the no-data message of the same container. -/
theorem c1_query_failure_replaces_container (st : DashState) (e : String) :
    (loadRoomCardsStep st (.err e)).1.dom.room_cards = roomsFailureHtml ∧
    (loadStatsStep st (.err e)).1.dom.stats_grid = statsFailureHtml ∧
    (st.historyLoaded = false →
      (loadHistoryStep st (.err e)).1.dom.history_body = historyFailureHtml) ∧
    roomsFailureHtml ≠ noRoomDataHtml ∧
    statsFailureHtml ≠ noStatsHtml ∧
    historyFailureHtml ≠ noHistoryHtml := by
  refine ⟨rfl, rfl, ?_, by decide, by decide, by decide⟩
  intro h
  simp [loadHistoryStep, h]

/-- Witness for C1 at a concrete page state and error. -/
theorem c1_witness :
    (loadRoomCardsStep st0 (.err "boom")).1.dom.room_cards = roomsFailureHtml ∧
    (loadHistoryStep st0 (.err "boom")).1.dom.history_body = historyFailureHtml :=
  ⟨(c1_query_failure_replaces_container st0 "boom").1,
   (c1_query_failure_replaces_container st0 "boom").2.2.1 rfl⟩

/-- C2: the three endpoints are fetched with caller-side timeouts of
3000 ms (latest), 3000 ms (stats) and 5000 ms (history), all within the
3 to 5 second band; a fetch that has not settled by its bound rejects
with the Request timeout error, which each handler surfaces as its
failure state; and each handler invocation issues exactly one request,
with no automatic retry in any branch. -/
theorem c2_caller_side_timeouts (st : DashState) (d : Nat)
    (o1 : FetchOutcome (List RoomData)) (o2 : FetchOutcome (List StatData))
    (o3 : FetchOutcome (List RowData)) (r : FetchOutcome (List RoomData)) :
    (latestRequest.timeout = 3000 ∧ statsRequest.timeout = 3000 ∧
      historyRequest.timeout = 5000) ∧
    (3000 ≤ latestRequest.timeout ∧ latestRequest.timeout ≤ 5000) ∧
    (3000 ≤ statsRequest.timeout ∧ statsRequest.timeout ≤ 5000) ∧
    (3000 ≤ historyRequest.timeout ∧ historyRequest.timeout ≤ 5000) ∧
    fetchWithTimeout latestRequest (latestRequest.timeout + d) r
      = .err "Request timeout" ∧
    (loadRoomCardsStep st (.err "Request timeout")).1.dom.room_cards
      = roomsFailureHtml ∧
    (loadStatsStep st (.err "Request timeout")).1.dom.stats_grid
      = statsFailureHtml ∧
    (st.historyLoaded = false →
      (loadHistoryStep st (.err "Request timeout")).1.dom.history_body
        = historyFailureHtml) ∧
    (loadRoomCardsStep st o1).2 = [latestRequest] ∧
    (loadStatsStep st o2).2 = [statsRequest] ∧
    (st.historyLoaded = false → (loadHistoryStep st o3).2 = [historyRequest]) := by
  refine ⟨⟨rfl, rfl, rfl⟩, by decide, by decide, by decide, ?_, rfl, rfl, ?_, rfl, rfl, ?_⟩
  · have h : ¬ (latestRequest.timeout + d < latestRequest.timeout) := by omega
    rw [fetchWithTimeout, if_neg h]
  · intro h
    simp [loadHistoryStep, h]
  · intro h
    cases o3 with
    | ok data => cases data <;> simp [loadHistoryStep, h]
    | err m => simp [loadHistoryStep, h]

/-- Witness for C2 at concrete state, delay and outcomes. -/
theorem c2_witness :
    fetchWithTimeout latestRequest (latestRequest.timeout + 250)
      (FetchOutcome.ok [rd0]) = .err "Request timeout" ∧
    (loadHistoryStep st0 (.err "x")).2 = [historyRequest] :=
  ⟨(c2_caller_side_timeouts st0 250 (.ok [rd0]) (.ok []) (.err "x")
      (.ok [rd0])).2.2.2.2.1,
   (c2_caller_side_timeouts st0 250 (.ok [rd0]) (.ok []) (.err "x")
      (.ok [rd0])).2.2.2.2.2.2.2.2.2.2 rfl⟩

/-- C3: a successful fetch with an empty payload renders the no-data
message of the corresponding container, which differs from that
container's failure message in both directions: an empty result is never
rendered as a failure and a failure is never rendered as no-data. -/
theorem c3_empty_result_is_not_error (st : DashState) (e : String) :
    (loadRoomCardsStep st (.ok [])).1.dom.room_cards = noRoomDataHtml ∧
    (loadStatsStep st (.ok [])).1.dom.stats_grid = noStatsHtml ∧
    (st.historyLoaded = false →
      (loadHistoryStep st (.ok ([] : List RowData))).1.dom.history_body
        = noHistoryHtml) ∧
    (loadRoomCardsStep st (.err e)).1.dom.room_cards ≠ noRoomDataHtml ∧
    (loadStatsStep st (.err e)).1.dom.stats_grid ≠ noStatsHtml ∧
    (st.historyLoaded = false →
      (loadHistoryStep st (.err e)).1.dom.history_body ≠ noHistoryHtml) ∧
    (loadRoomCardsStep st (.ok ([] : List RoomData))).1.dom.room_cards
      ≠ roomsFailureHtml ∧
    (loadStatsStep st (.ok ([] : List StatData))).1.dom.stats_grid
      ≠ statsFailureHtml := by
  refine ⟨rfl, rfl, ?_, ?_, ?_, ?_, ?_, ?_⟩
  · intro h
    simp [loadHistoryStep, h]
  · show roomsFailureHtml ≠ noRoomDataHtml
    decide
  · show statsFailureHtml ≠ noStatsHtml
    decide
  · intro h
    have hh : (loadHistoryStep st (.err e)).1.dom.history_body = historyFailureHtml := by
      simp [loadHistoryStep, h]
    rw [hh]
    decide
  · show noRoomDataHtml ≠ roomsFailureHtml
    decide
  · show noStatsHtml ≠ statsFailureHtml
    decide

/-- Witness for C3 at a concrete page state. -/
theorem c3_witness :
    (loadHistoryStep st0 (.ok ([] : List RowData))).1.dom.history_body
      = noHistoryHtml ∧
    (loadHistoryStep st0 (.err "x")).1.dom.history_body ≠ noHistoryHtml :=
  ⟨(c3_empty_result_is_not_error st0 "x").2.2.1 rfl,
   (c3_empty_result_is_not_error st0 "x").2.2.2.2.2.1 rfl⟩

/-- C4: a missing humidity_status field, and equally a falsy (empty
string) one, is displayed as NORMAL, while a present non-falsy value is
displayed unchanged. -/
theorem c4_humidity_status_defaults_to_normal (s : String) (h : s ≠ "") :
    humidityStatusText none = "NORMAL" ∧
    humidityStatusText (some "") = "NORMAL" ∧
    humidityStatusText (some s) = s := by
  refine ⟨rfl, rfl, ?_⟩
  simp [humidityStatusText, h]

/-- Witness for C4 at a concrete present status. -/
theorem c4_witness :
    humidityStatusText none = "NORMAL" ∧
    humidityStatusText (some "") = "NORMAL" ∧
    humidityStatusText (some "ALERT") = "ALERT" :=
  c4_humidity_status_defaults_to_normal "ALERT" (by decide)

/-- C5 counterexample: at the first firing of the 120-second interval
with the historyLoaded flag clear (a failed or still-empty history load),
the history endpoint is NOT re-fetched, so history is not re-fetched
every 120 seconds as the claim states. -/
theorem c5_counterexample_history_gated :
    intervalFires 120000 120000 = true ∧
    historyFetchedAt 120000 false = false := by
  decide

/-- C5 amended: latest is re-fetched exactly at every positive multiple
of 15000 ms and stats exactly at every positive multiple of 60000 ms,
unconditionally; the history interval fires at every positive multiple of
120000 ms but re-fetches only when the historyLoaded flag is set; each
schedule depends only on elapsed time (and, for history, on its own
flag), never on the other endpoints. -/
theorem c5_amended_refresh_schedule (t : Nat) (hl : Bool) :
    (latestFetchedAt t = true ↔ (t % 15000 = 0 ∧ t ≠ 0)) ∧
    (statsFetchedAt t = true ↔ (t % 60000 = 0 ∧ t ≠ 0)) ∧
    (historyFetchedAt t hl = true ↔ ((t % 120000 = 0 ∧ t ≠ 0) ∧ hl = true)) := by
  refine ⟨?_, ?_, ?_⟩ <;>
    simp [latestFetchedAt, statsFetchedAt, historyFetchedAt, intervalFires]

/-- Witness for C5 amended at a concrete tick. -/
theorem c5_witness :
    (latestFetchedAt 30000 = true ↔ (30000 % 15000 = 0 ∧ (30000 : ℕ) ≠ 0)) ∧
    (statsFetchedAt 30000 = true ↔ (30000 % 60000 = 0 ∧ (30000 : ℕ) ≠ 0)) ∧
    (historyFetchedAt 30000 false = true ↔
      ((30000 % 120000 = 0 ∧ (30000 : ℕ) ≠ 0) ∧ false = true)) :=
  c5_amended_refresh_schedule 30000 false

/-- C8: the historyLoaded flag is set only by a successful render of a
non-empty history payload; while it is set, an invocation of loadHistory
changes nothing and issues no fetch; a rejected or empty load leaves the
flag clear; and the 120-second interval callback does nothing while the
flag is clear, so it never retries a load that has not yet succeeded. -/
theorem c8_historyLoaded_flag (st : DashState) (o : FetchOutcome (List RowData))
    (d : List RowData) (e : String) :
    (st.historyLoaded = true → loadHistoryStep st o = (st, [])) ∧
    (st.historyLoaded = false →
      ((loadHistoryStep st o).1.historyLoaded = true ↔ ∃ l, l ≠ [] ∧ o = .ok l)) ∧
    (st.historyLoaded = false → d ≠ [] →
      (loadHistoryStep st (.ok d)).1.dom.history_body = historyRowsHtml d ∧
      (loadHistoryStep st (.ok d)).1.historyLoaded = true) ∧
    (st.historyLoaded = false →
      (loadHistoryStep st (.err e)).1.historyLoaded = false) ∧
    (st.historyLoaded = false →
      (loadHistoryStep st (.ok ([] : List RowData))).1.historyLoaded = false) ∧
    (st.historyLoaded = false → historyRefreshTick st o = (st, [])) := by
  refine ⟨?_, ?_, ?_, ?_, ?_, ?_⟩
  · intro h
    simp [loadHistoryStep, h]
  · intro h
    cases o with
    | ok data =>
        cases data with
        | nil => simp [loadHistoryStep, h]
        | cons a l =>
            simp only [loadHistoryStep, h]
            constructor
            · intro _
              exact ⟨a :: l, by simp, rfl⟩
            · intro _
              simp
    | err m => simp [loadHistoryStep, h]
  · intro h hd
    cases d with
    | nil => exact absurd rfl hd
    | cons a l => exact ⟨by simp [loadHistoryStep, h], by simp [loadHistoryStep, h]⟩
  · intro h
    simp [loadHistoryStep, h]
  · intro h
    simp [loadHistoryStep, h]
  · intro h
    simp [historyRefreshTick, h]

/-- A concrete history row used to instantiate witness theorems. -/
def row0 : RowData :=
  { timestamp := "2026-01-05 10:00:00", room := "bedroom",
    device_id := "esp32-02", temperature := 22, temp_status := "NORMAL",
    humidity := 55, air_quality := 80, air_status := "NORMAL",
    light_level := 300 }

/-- Witness for C8 at a concrete state and payloads. -/
theorem c8_witness :
    ((loadHistoryStep st0 (.ok [row0])).1.historyLoaded = true ↔
      ∃ l, l ≠ [] ∧ (FetchOutcome.ok [row0] : FetchOutcome (List RowData)) = .ok l) ∧
    (loadHistoryStep st0 (.err "x")).1.historyLoaded = false ∧
    historyRefreshTick st0 (.ok [row0]) = (st0, []) :=
  ⟨(c8_historyLoaded_flag st0 (.ok [row0]) [row0] "x").2.1 rfl,
   (c8_historyLoaded_flag st0 (.ok [row0]) [row0] "x").2.2.2.1 rfl,
   (c8_historyLoaded_flag st0 (.ok [row0]) [row0] "x").2.2.2.2.2 rfl⟩

/-- C9: in the shared template conditionals of the room cards and the
history table, the air-quality value carries the value-alert class
exactly when air_status is the string POOR (so an ALERT air status is
not highlighted), while the temperature value carries it exactly when
temp_status is any string other than NORMAL. -/
theorem c9_value_alert_highlight (s : String) :
    (airValueClass s = "value-alert" ↔ s = "POOR") ∧
    (tempValueClass s = "value-alert" ↔ s ≠ "NORMAL") ∧
    airValueClass "ALERT" = "" ∧
    tempValueClass "ALERT" = "value-alert" := by
  refine ⟨?_, ?_, by decide, by decide⟩
  · by_cases h : s = "POOR" <;> simp [airValueClass, h]
  · by_cases h : s = "NORMAL" <;> simp [tempValueClass, h]

/-- Witness for C9 at a concrete non-POOR, non-NORMAL status. -/
theorem c9_witness :
    (airValueClass "ALERT" = "value-alert" ↔ "ALERT" = "POOR") ∧
    (tempValueClass "ALERT" = "value-alert" ↔ "ALERT" ≠ "NORMAL") ∧
    airValueClass "ALERT" = "" ∧
    tempValueClass "ALERT" = "value-alert" :=
  c9_value_alert_highlight "ALERT"

/-- C10: the CSS class of the humidity status badge rendered by
loadRoomCards is the constant status-normal, whatever humidity_status
holds; only the badge text follows the status value. -/
theorem c10_humidity_badge_class_constant (r : RoomData) (hs : Option String) :
    humidityStatusClass r = "status-normal" ∧
    humidityStatusClass { r with humidity_status := hs } = humidityStatusClass r ∧
    (hs = some "ALERT" →
      humidityStatusText ({ r with humidity_status := hs }).humidity_status
        = "ALERT") := by
  refine ⟨rfl, rfl, ?_⟩
  intro h
  subst h
  show humidityStatusText (some "ALERT") = "ALERT"
  decide

/-- Witness for C10 at a concrete room with an ALERT humidity status. -/
theorem c10_witness :
    humidityStatusClass rd0 = "status-normal" ∧
    humidityStatusClass { rd0 with humidity_status := some "ALERT" }
      = humidityStatusClass rd0 ∧
    humidityStatusText ({ rd0 with humidity_status := some "ALERT" }).humidity_status
      = "ALERT" :=
  ⟨(c10_humidity_badge_class_constant rd0 (some "ALERT")).1,
   (c10_humidity_badge_class_constant rd0 (some "ALERT")).2.1,
   (c10_humidity_badge_class_constant rd0 (some "ALERT")).2.2 rfl⟩

/-- Modelled from the spec: the closed enumeration of known rooms
(section 3 and section 9 of the specification; the room identifiers are
the ones the repository uses). The backend source that declares them is
not among the available files. -/
inductive Room where
  | living_room
  | kitchen
  | bedroom
deriving DecidableEq

/-- Modelled from the spec: the classification labels of section 4.2
(NORMAL, WARNING, ALERT three-tier scale, plus POOR for the air-quality
scale). -/
inductive Status where
  | NORMAL
  | WARNING
  | ALERT
  | POOR
deriving DecidableEq

/-- Modelled from the spec: a classified Reading (section 3 of the
specification), immutable once classified. -/
structure Reading where
  room : Room
  device_id : String
  timestamp : ℚ
  temperature : ℚ
  humidity : ℚ
  air_quality : ℚ
  light_level : ℚ
  temp_status : Status
  humidity_status : Status
  air_status : Status
deriving DecidableEq

/-- Modelled from the spec: the Store of section 4.3, an append-only
ordered log of Readings (list position is commit order) together with the
per-room latest-value slot that append maintains. -/
structure Store where
  log : List Reading
  latest : Room → Option Reading

/-- Modelled from the spec: the empty Store, before any reading is
committed. -/
def Store.empty : Store :=
  { log := [], latest := fun _ => none }

/-- Modelled from the spec: Store.append (section 4.3) adds the reading
to the ordered log and overwrites its room's latest-value slot. -/
def Store.append (s : Store) (r : Reading) : Store :=
  { log := s.log ++ [r]
    latest := fun rm => if rm = r.room then some r else s.latest rm }

/-- The known rooms, one entry per constructor of Room. -/
def allRooms : List Room :=
  [Room.living_room, Room.kitchen, Room.bedroom]

/-- Modelled from the spec: latestPerRoom (section 4.3) returns one entry
per room that has ever reported, read from the per-room latest-value
slots; rooms without readings contribute nothing. -/
def Store.latestPerRoom (s : Store) : List Reading :=
  allRooms.filterMap s.latest

/-- The Store obtained by committing a list of readings in order, starting
from the empty Store: the list order is the commit order. -/
def mkStore (rs : List Reading) : Store :=
  rs.foldl Store.append Store.empty

/-- Helper: the last element of a cons is the last element of the tail,
defaulting to the head. -/
theorem getLast?_or_cons {α : Type} (a : α) (l : List α) :
    (a :: l).getLast? = l.getLast?.or (some a) := by
  induction l generalizing a with
  | nil => rfl
  | cons b t ih =>
    rw [List.getLast?_cons_cons, ih b]
    cases ht : t.getLast? <;> simp

/-- Helper: the last element of a list is a member of it. -/
theorem getLast?_some_mem {α : Type} {l : List α} {a : α}
    (h : l.getLast? = some a) : a ∈ l := by
  induction l with
  | nil => simp at h
  | cons b t ih =>
    rw [getLast?_or_cons] at h
    cases ht : t.getLast? with
    | none => rw [ht] at h; simp at h; simp [h]
    | some c =>
        rw [ht] at h
        simp at h
        subst h
        exact List.mem_cons_of_mem _ (ih ht)

/-- Extending a store with a list of appends updates each latest-value
slot to the last committed reading for that room, keeping the previous
slot content when the list has none. -/
theorem store_foldl_latest (rs : List Reading) (s : Store) (rm : Room) :
    (rs.foldl Store.append s).latest rm
      = ((rs.filter (fun r => r.room == rm)).getLast?).or (s.latest rm) := by
  induction rs generalizing s with
  | nil => simp
  | cons r rs ih =>
    simp only [List.foldl_cons]
    rw [ih]
    by_cases h : r.room = rm
    · subst h
      have hs : (s.append r).latest r.room = some r := by simp [Store.append]
      rw [hs]
      simp only [List.filter_cons, beq_self_eq_true, if_true]
      rw [getLast?_or_cons, Option.or_assoc]
      cases hx : (rs.filter (fun x => x.room == r.room)).getLast? <;> simp
    · have h2 : ¬(rm = r.room) := fun e => h e.symm
      have hs : (s.append r).latest rm = s.latest rm := by simp [Store.append, h2]
      rw [hs]
      have hb : (r.room == rm) = false := by simp [h]
      simp only [List.filter_cons, hb]
      simp

/-- The latest-value slot of a built store holds exactly the
greatest-commit-order reading of its room. -/
theorem mkStore_latest (rs : List Reading) (rm : Room) :
    (mkStore rs).latest rm = (rs.filter (fun r => r.room == rm)).getLast? := by
  rw [mkStore, store_foldl_latest]
  simp [Store.empty]

/-- The log of a built store is the committed list itself, in commit
order. -/
theorem mkStore_log (rs : List Reading) :
    (mkStore rs).log = rs := by
  have general : ∀ (l : List Reading) (s : Store), (l.foldl Store.append s).log = s.log ++ l := by
    intro l
    induction l with
    | nil => intro s; simp
    | cons r t ih =>
        intro s
        simp only [List.foldl_cons]
        rw [ih]
        simp [Store.append]
  rw [mkStore, general]
  simp [Store.empty]

/-- A reading stored in a latest-value slot belongs to that slot's room. -/
theorem mkStore_latest_room (rs : List Reading) (rm : Room) (r : Reading)
    (h : (mkStore rs).latest rm = some r) : r.room = rm := by
  rw [mkStore_latest] at h
  have hmem := getLast?_some_mem h
  have := List.mem_filter.mp hmem
  simpa using this.2

/-- Slots for rooms outside a room list contribute nothing after
filtering for a room outside that list. -/
theorem filterMap_slot_filter_notmem (slot : Room → Option Reading)
    (hroom : ∀ rm r, slot rm = some r → r.room = rm) :
    ∀ (rooms : List Room) (rm : Room), rm ∉ rooms →
      (rooms.filterMap slot).filter (fun r => r.room == rm) = [] := by
  intro rooms
  induction rooms with
  | nil => intro rm _; rfl
  | cons a t ih =>
    intro rm hnm
    have hne : rm ≠ a := fun e => hnm (e ▸ List.mem_cons_self a t)
    have hnt : rm ∉ t := fun e => hnm (List.mem_cons_of_mem a e)
    cases hsa : slot a with
    | none => simp only [List.filterMap_cons, hsa]; exact ih rm hnt
    | some r =>
        have hr : r.room = a := hroom a r hsa
        have hb : (r.room == rm) = false := by
          simp [hr]
          exact fun e => hne e.symm
        simp only [List.filterMap_cons, hsa, List.filter_cons, hb]
        simp only [Bool.false_eq_true, if_false]
        exact ih rm hnt

/-- Over a duplicate-free room list containing rm, filtering the slot
contents for rm yields exactly the content of the rm slot. -/
theorem filterMap_slot_filter (slot : Room → Option Reading)
    (hroom : ∀ rm r, slot rm = some r → r.room = rm) :
    ∀ (rooms : List Room) (rm : Room), rooms.Nodup → rm ∈ rooms →
      (rooms.filterMap slot).filter (fun r => r.room == rm) = (slot rm).toList := by
  intro rooms
  induction rooms with
  | nil => intro rm _ hm; simp at hm
  | cons a t ih =>
    intro rm hnd hm
    have hndt : t.Nodup := (List.nodup_cons.mp hnd).2
    by_cases hra : rm = a
    · subst hra
      have hnt : rm ∉ t := (List.nodup_cons.mp hnd).1
      cases hsa : slot rm with
      | none =>
          simp only [List.filterMap_cons, hsa, Option.toList]
          exact filterMap_slot_filter_notmem slot hroom t rm hnt
      | some r =>
          have hr : r.room = rm := hroom rm r hsa
          have hb : (r.room == rm) = true := by simp [hr]
          simp only [List.filterMap_cons, hsa, Option.toList, List.filter_cons, hb, if_true]
          rw [filterMap_slot_filter_notmem slot hroom t rm hnt]
    · have hmt : rm ∈ t := by
        cases List.mem_cons.mp hm with
        | inl e => exact absurd e hra
        | inr e => exact e
      cases hsa : slot a with
      | none =>
          simp only [List.filterMap_cons, hsa]
          exact ih rm hndt hmt
      | some r =>
          have hr : r.room = a := hroom a r hsa
          have hb : (r.room == rm) = false := by
            simp [hr]
            exact fun e => hra e.symm
          simp only [List.filterMap_cons, hsa, List.filter_cons, hb]
          simp only [Bool.false_eq_true, if_false]
          exact ih rm hndt hmt

/-- C6: in a store built by committing any list of readings, the
latestPerRoom view contains, for each room, exactly the entries given by
the last (greatest commit order) reading of that room in the commit log:
a singleton when the room has at least one committed reading, nothing
otherwise; and the commit log is the committed list itself, so commit
order, not the timestamp field, selects the entry. -/
theorem c6_latestPerRoom_greatest_commit (rs : List Reading) (rm : Room) :
    (mkStore rs).latestPerRoom.filter (fun r => r.room == rm)
      = ((rs.filter (fun r => r.room == rm)).getLast?).toList ∧
    (mkStore rs).log = rs := by
  constructor
  · rw [Store.latestPerRoom]
    rw [filterMap_slot_filter (mkStore rs).latest (mkStore_latest_room rs)
        allRooms rm (by decide) (by cases rm <;> decide)]
    rw [mkStore_latest]
  · exact mkStore_log rs

/-- Modelled from the spec: RoomStats (section 3), the per-room rolling
aggregate with monotonic reading counter, running means and alert
counters. -/
structure RoomStats where
  total_readings : ℕ
  avg_temp : ℚ
  avg_humidity : ℚ
  temp_alerts : ℕ
  air_alerts : ℕ
deriving DecidableEq

/-- Modelled from the spec: the lazily created initial RoomStats of a
room before its first reading (all counters and means at zero). -/
def RoomStats.init : RoomStats :=
  { total_readings := 0, avg_temp := 0, avg_humidity := 0,
    temp_alerts := 0, air_alerts := 0 }

/-- Modelled from the spec: the Aggregator streaming update of section
4.4, incorporating one classified Reading: the counter increments, the
running means follow the update formula with the new total, and the
alert counters increment exactly on a non-NORMAL classification. -/
def RoomStats.update (s : RoomStats) (r : Reading) : RoomStats :=
  { total_readings := s.total_readings + 1
    avg_temp := s.avg_temp
      + (r.temperature - s.avg_temp) / ((s.total_readings + 1 : ℕ) : ℚ)
    avg_humidity := s.avg_humidity
      + (r.humidity - s.avg_humidity) / ((s.total_readings + 1 : ℕ) : ℚ)
    temp_alerts := s.temp_alerts + (if r.temp_status ≠ Status.NORMAL then 1 else 0)
    air_alerts := s.air_alerts + (if r.air_status ≠ Status.NORMAL then 1 else 0) }

/-- Modelled from the spec: the Aggregator state, one RoomStats per known
room, all starting from the lazily created initial value. -/
def aggInit : Room → RoomStats :=
  fun _ => RoomStats.init

/-- Modelled from the spec: Aggregator.update routes a classified
Reading to the RoomStats of its own room and leaves other rooms
untouched. -/
def aggUpdate (a : Room → RoomStats) (r : Reading) : Room → RoomStats :=
  fun rm => if rm = r.room then (a rm).update r else a rm

/-- The Aggregator state after incorporating a list of committed readings
in order. -/
def mkAgg (rs : List Reading) : Room → RoomStats :=
  rs.foldl aggUpdate aggInit

/-- Updates localize: the stats of one room after a mixed stream equal
the fold of the plain RoomStats update over that room's own readings. -/
theorem agg_foldl_localize (rs : List Reading) (a : Room → RoomStats) (rm : Room) :
    (rs.foldl aggUpdate a) rm
      = (rs.filter (fun r => r.room == rm)).foldl RoomStats.update (a rm) := by
  induction rs generalizing a with
  | nil => rfl
  | cons r rs ih =>
    simp only [List.foldl_cons]
    rw [ih]
    by_cases h : r.room = rm
    · subst h
      have ha : aggUpdate a r r.room = (a r.room).update r := by simp [aggUpdate]
      rw [ha]
      simp only [List.filter_cons, beq_self_eq_true, if_true, List.foldl_cons]
    · have h2 : ¬(rm = r.room) := fun e => h e.symm
      have ha : aggUpdate a r rm = a rm := by simp [aggUpdate, h2]
      rw [ha]
      have hb : (r.room == rm) = false := by simp [h]
      simp only [List.filter_cons, hb]
      simp

/-- Invariant of the streaming mean: after folding a stream into any
starting RoomStats, the counter grows by the stream length and the
running temperature mean times the counter accumulates the temperature
sum. -/
theorem stats_foldl_invariant (l : List Reading) (s : RoomStats) :
    ((l.foldl RoomStats.update s).total_readings = s.total_readings + l.length) ∧
    (((l.foldl RoomStats.update s).total_readings : ℚ)
        * (l.foldl RoomStats.update s).avg_temp
      = (s.total_readings : ℚ) * s.avg_temp + (l.map Reading.temperature).sum) := by
  induction l generalizing s with
  | nil => simp
  | cons r l ih =>
    obtain ⟨ih1, ih2⟩ := ih (RoomStats.update s r)
    have hup : (RoomStats.update s r).total_readings = s.total_readings + 1 := rfl
    constructor
    · simp only [List.foldl_cons, List.length_cons]
      rw [ih1, hup]
      omega
    · have hkey : ((RoomStats.update s r).total_readings : ℚ)
          * (RoomStats.update s r).avg_temp
          = (s.total_readings : ℚ) * s.avg_temp + r.temperature := by
        have hne : ((s.total_readings + 1 : ℕ) : ℚ) ≠ 0 :=
          Nat.cast_ne_zero.mpr (Nat.succ_ne_zero _)
        rw [hup]
        show ((s.total_readings + 1 : ℕ) : ℚ)
            * (s.avg_temp + (r.temperature - s.avg_temp) / ((s.total_readings + 1 : ℕ) : ℚ))
          = (s.total_readings : ℚ) * s.avg_temp + r.temperature
        field_simp
        ring
      simp only [List.foldl_cons, List.map_cons, List.sum_cons]
      rw [ih2, hkey]
      ring

/-- C7: for every room, after committing any stream of readings, the
total_readings counter of that room equals the number of readings for
that room, the running temperature mean equals the arithmetic mean of
those temperatures (exactly, over the rationals) whenever the room has at
least one reading, and one update step follows the streaming formula
with the incremented counter. -/
theorem c7_room_stats_running_mean (rs : List Reading) (rm : Room)
    (h : rs.filter (fun r => r.room == rm) ≠ []) :
    (mkAgg rs rm).total_readings = (rs.filter (fun r => r.room == rm)).length ∧
    (mkAgg rs rm).avg_temp
      = ((rs.filter (fun r => r.room == rm)).map Reading.temperature).sum
        / ((rs.filter (fun r => r.room == rm)).length : ℚ) ∧
    ∀ (s : RoomStats) (r : Reading),
      (RoomStats.update s r).total_readings = s.total_readings + 1 ∧
      (RoomStats.update s r).avg_temp
        = s.avg_temp + (r.temperature - s.avg_temp)
            / (((RoomStats.update s r).total_readings : ℕ) : ℚ) := by
  have hloc : mkAgg rs rm
      = (rs.filter (fun r => r.room == rm)).foldl RoomStats.update RoomStats.init := by
    rw [mkAgg, agg_foldl_localize]
    rfl
  obtain ⟨h1, h2⟩ :=
    stats_foldl_invariant (rs.filter (fun r => r.room == rm)) RoomStats.init
  have htot : (mkAgg rs rm).total_readings
      = (rs.filter (fun r => r.room == rm)).length := by
    rw [hloc, h1]
    simp [RoomStats.init]
  refine ⟨htot, ?_, fun s r => ⟨rfl, rfl⟩⟩
  have hlen : (rs.filter (fun r => r.room == rm)).length ≠ 0 := by
    intro h0
    exact h (List.length_eq_zero.mp h0)
  have hlenq : ((rs.filter (fun r => r.room == rm)).length : ℚ) ≠ 0 :=
    Nat.cast_ne_zero.mpr hlen
  rw [eq_div_iff hlenq]
  have h2m : ((mkAgg rs rm).total_readings : ℚ) * (mkAgg rs rm).avg_temp
      = ((rs.filter (fun r => r.room == rm)).map Reading.temperature).sum := by
    rw [hloc, h2]
    show (((0 : ℕ) : ℚ)) * (0 : ℚ) + _ = _
    simp
  rw [htot] at h2m
  rw [mul_comm] at h2m
  exact h2m

/-- A concrete classified reading used to instantiate witness theorems. -/
def rr0 : Reading :=
  { room := Room.kitchen, device_id := "esp32-01", timestamp := 100,
    temperature := 45, humidity := 70, air_quality := 210,
    light_level := 120, temp_status := Status.ALERT,
    humidity_status := Status.NORMAL, air_status := Status.POOR }

/-- A second concrete reading for the same room, committed later but
carrying an earlier timestamp, so commit order and timestamp order
disagree. -/
def rr1 : Reading :=
  { room := Room.kitchen, device_id := "esp32-01", timestamp := 50,
    temperature := 25, humidity := 50, air_quality := 90,
    light_level := 200, temp_status := Status.NORMAL,
    humidity_status := Status.NORMAL, air_status := Status.NORMAL }

/-- Witness for C6: with two kitchen readings where the later commit has
the earlier timestamp, latestPerRoom yields exactly the later-committed
one. -/
theorem c6_witness :
    (mkStore [rr0, rr1]).latestPerRoom.filter (fun r => r.room == Room.kitchen)
      = [rr1] ∧ rr1.timestamp < rr0.timestamp := by
  have h := c6_latestPerRoom_greatest_commit [rr0, rr1] Room.kitchen
  rw [h.1]
  constructor
  · decide
  · decide

/-- Witness for C7: two kitchen readings with temperatures 45 and 25
give a counter of 2 and a running mean of exactly 35. -/
theorem c7_witness :
    (mkAgg [rr0, rr1] Room.kitchen).total_readings = 2 ∧
    (mkAgg [rr0, rr1] Room.kitchen).avg_temp = 35 := by
  have h := c7_room_stats_running_mean [rr0, rr1] Room.kitchen (by decide)
  have hf : [rr0, rr1].filter (fun r => r.room == Room.kitchen) = [rr0, rr1] := rfl
  constructor
  · rw [h.1, hf]
    rfl
  · rw [h.2.1, hf]
    have hm : [rr0, rr1].map Reading.temperature = [(45 : ℚ), 25] := rfl
    rw [hm]
    norm_num
